import Mathlib

/-!
# Verification engine of evolvix-backend: shallow embedding

A shallow embedding, in Lean 4, of the tiered identity-verification
subsystem of the `evolvix-backend` repository:

* level derivation and the submission path
  (`src/presentation/controllers/verificationController.ts`),
* the admin review workflow (`approveVerification`, `rejectVerification`
  in the same file),
* the access gate (`requireVerificationLevel` middleware),
* the crypto codec (`src/utils/encryption.ts`): blob layout
  `salt(64) || iv(16) || authTag(16) || ciphertext`, base64-encoded.

Conventions of the embedding:

* Mongo ObjectIds become `Nat`; `Date` values become `Nat` timestamps.
* JavaScript truthiness of an optional object field becomes `Option`/`Bool`;
  truthiness of a string is non-emptiness.
* The Node `crypto` AES-256-GCM cipher is an external primitive: it is
  modelled as an abstract authenticated cipher (`AEAD`), and theorems about
  `encrypt`/`decrypt` take the cipher's round-trip facts as hypotheses at the
  inputs used.  Byte strings are `List Nat` with every element `< 256`.
* The Mongoose `Mixed` map `user.verificationLevels` becomes a total function
  `VerificationRole → Option Nat` (an absent map behaves exactly like the
  all-`none` map in every read and write the code performs).
-/

/-- Enumeration `VerificationRole` from `models/Verification.ts`, taking the
values student, mentor, employer, investor, sponsor, entrepreneur, admin. -/
inductive VerificationRole where
  | student
  | mentor
  | employer
  | investor
  | sponsor
  | entrepreneur
  | admin
deriving DecidableEq, Repr

/-- Enumeration `VerificationStatus` from `models/Verification.ts`, taking the
values pending, approved, rejected, incomplete. -/
inductive VerificationStatus where
  | pending
  | approved
  | rejected
  | incomplete
deriving DecidableEq, Repr

/-- The `idProof` evidence section; only the `documentUrl` field is inspected
by the derivation (`verificationData.idProof.documentUrl`). -/
structure IdProofSection where
  documentUrl : Option String
deriving DecidableEq, Repr

/-- The submitted evidence bundle (`verificationData` in
`submitVerification`).  Sections other than `idProof` are only ever tested
for JavaScript truthiness, so they are carried as `Bool`
(present-and-truthy or not). -/
structure VerificationData where
  idProof : Option IdProofSection
  educationInfo : Bool
  professionalCredentials : Bool
  bankDetails : Bool
  companyKYC : Bool
  taxCompliance : Bool
  investmentBankDetails : Bool
  sponsorKYC : Bool
  addressProof : Bool
  videoVerification : Bool
deriving DecidableEq, Repr

/-- Truthiness of `verificationData.idProof && verificationData.idProof.documentUrl`
(`verificationController.ts` line 55): the section is present and its
`documentUrl` is a non-empty string. -/
def idProofTruthy (vd : VerificationData) : Bool :=
  match vd.idProof with
  | some p =>
    match p.documentUrl with
    | some u => !u.isEmpty
    | none => false
  | none => false

/-- The L2 disjunction of `verificationController.ts` lines 60–66, one
disjunct per role; `entrepreneur` (and `admin`) have no disjunct. -/
def roleDocsTruthy (role : VerificationRole) (vd : VerificationData) : Bool :=
  match role with
  | .student => vd.educationInfo
  | .mentor => vd.professionalCredentials && vd.bankDetails
  | .employer => vd.companyKYC
  | .investor => vd.taxCompliance && vd.investmentBankDetails
  | .sponsor => vd.sponsorKYC
  | .entrepreneur => false
  | .admin => false

/-- The level-derivation step of `submitVerification`
(`verificationController.ts` lines 46–73): a mutable `determinedLevel`
starting at 0, overwritten in sequence by the L0, L1, L2, L3 checks. -/
def determineLevel (role : VerificationRole) (isEmailVerified : Bool)
    (vd : VerificationData) : Nat :=
  let d0 : Nat := 0
  let d1 := if isEmailVerified then 0 else d0
  let d2 := if idProofTruthy vd then 1 else d1
  let d3 := if roleDocsTruthy role vd then 2 else d2
  if vd.addressProof && vd.videoVerification then 3 else d3

/-- Scenario C's evidence bundle: address proof and video verification only,
no identity proof, no role-specific documents. -/
def scenarioCEvidence : VerificationData :=
  { idProof := none
    educationInfo := false
    professionalCredentials := false
    bankDetails := false
    companyKYC := false
    taxCompliance := false
    investmentBankDetails := false
    sponsorKYC := false
    addressProof := true
    videoVerification := true }

/-- C1: the derivation evaluates the tier predicates in ascending order
L0, L1, L2, L3, each satisfied predicate overwriting the candidate, so the
result is the *last* (highest-indexed) satisfied tier; in particular any
bundle containing both an address proof and a video verification derives
level 3, whatever the L1/L2 evidence and the role. -/
theorem determineLevel_last_tier_wins (role : VerificationRole)
    (isEmailVerified : Bool) (vd : VerificationData) :
    determineLevel role isEmailVerified vd =
      (if vd.addressProof && vd.videoVerification then 3
       else if roleDocsTruthy role vd then 2
       else if idProofTruthy vd then 1
       else 0) ∧
    (vd.addressProof = true → vd.videoVerification = true →
      determineLevel role isEmailVerified vd = 3) := by
  constructor
  · cases h3 : vd.addressProof && vd.videoVerification <;>
      cases h2 : roleDocsTruthy role vd <;>
      cases h1 : idProofTruthy vd <;>
      cases isEmailVerified <;>
      simp [determineLevel, h1, h2, h3]
  · intro ha hv
    simp [determineLevel, ha, hv]

/-- Witness for C1 at Scenario C: an entrepreneur with only address proof and
video verification (no identity proof, hence no satisfied L1 or L2 predicate)
derives level 3. -/
theorem determineLevel_last_tier_wins_witness :
    determineLevel VerificationRole.entrepreneur true scenarioCEvidence = 3 :=
  (determineLevel_last_tier_wins VerificationRole.entrepreneur true
    scenarioCEvidence).2 rfl rfl

/-! ## Verification records and the user entity -/

/-- A `Verification` document (`models/Verification.ts`), restricted to the
fields the controllers and the gate read or write.  ObjectIds and dates are
`Nat`. -/
structure VerificationRecord where
  userId : Nat
  role : VerificationRole
  verificationLevel : Nat
  status : VerificationStatus
  evidence : VerificationData
  submittedAt : Nat
  reviewedBy : Option Nat
  reviewedAt : Option Nat
  rejectionReason : Option String
  adminNotes : Option String
deriving DecidableEq, Repr

/-- The `User` document, restricted to what the verification subsystem
touches: `_id`, the `verificationLevels` Mixed map (an absent map is the
all-`none` function), `isEmailVerified`, and `primaryRole`. -/
structure UserEntity where
  id : Nat
  verificationLevels : VerificationRole → Option Nat
  isEmailVerified : Bool
  primaryRole : Option VerificationRole

/-- Lookup of the approved record for a user and role: the query
`Verification.findOne` on userId, role and status approved
(`verificationLevel.ts` middleware, lines 59–63), over a list model of the
collection. -/
def findApprovedVerification (db : List VerificationRecord) (userId : Nat)
    (role : VerificationRole) : Option VerificationRecord :=
  db.find? (fun r =>
    decide (r.userId = userId ∧ r.role = role ∧ r.status = VerificationStatus.approved))

/-- The effective-level resolution of `requireVerificationLevel`
(middleware lines 50–73): `userLevel` starts at 0, is overwritten by the
trust-cache entry when present, and the approved-record / email fallback
runs exactly when the value so far equals 0. -/
def resolveUserLevel (user : UserEntity) (db : List VerificationRecord)
    (checkRole : VerificationRole) : Nat :=
  let userLevel0 : Nat := 0
  let userLevel1 :=
    match user.verificationLevels checkRole with
    | some v => v
    | none => userLevel0
  if userLevel1 = 0 then
    match findApprovedVerification db user.id checkRole with
    | some verification => verification.verificationLevel
    | none => if user.isEmailVerified then 0 else userLevel1
  else userLevel1

/-- List `levelNames` from the middleware (line 77). -/
def levelNames : List String :=
  ["L0 (Basic)", "L1 (ID Verified)", "L2 (Role Verified)", "L3 (Trusted/Premium)"]

/-- The 403 message template of the middleware (line 80); an out-of-range
index interpolates as `undefined`, as in a JavaScript template string. -/
def gateMessage (requiredLevel userLevel : Nat) : String :=
  "This action requires " ++ levelNames.getD requiredLevel "undefined" ++
    " verification. Your current level is " ++ levelNames.getD userLevel "undefined" ++ "."

/-- Outcome of the `requireVerificationLevel` middleware: either `next()` is
reached (carrying the `requiredLevel`/`requiredRole` attached to the
request) or `next(new AppError(msg, code))` is called. -/
inductive GateOutcome where
  | proceed (requiredLevel : Nat) (requiredRole : VerificationRole)
  | appError (statusCode : Nat) (msg : String)
deriving DecidableEq, Repr

/-- Middleware `requireVerificationLevel(requiredLevel, role)` (lines
26–95), from the point where the user document has been loaded:
`checkRole = role || user.primaryRole` (400 when neither is set), then the
level resolution, then the `userLevel < requiredLevel` decision. -/
def requireVerificationLevel (requiredLevel : Nat) (role : Option VerificationRole)
    (user : UserEntity) (db : List VerificationRecord) : GateOutcome :=
  match role.orElse (fun _ => user.primaryRole) with
  | none => .appError 400 "No role specified for verification check"
  | some checkRole =>
    let userLevel := resolveUserLevel user db checkRole
    if userLevel < requiredLevel then
      .appError 403 (gateMessage requiredLevel userLevel)
    else
      .proceed requiredLevel checkRole

/-- A user with an empty trust cache, an unverified email, and no
verification records at all. -/
def bareUser : UserEntity :=
  { id := 1
    verificationLevels := fun _ => none
    isEmailVerified := false
    primaryRole := some VerificationRole.student }

/-- C4, counterexample: a user with no cached level for the role, no
approved record, and an unverified email is *not* rejected by
`requireVerificationLevel 0`: the resolution defaults `userLevel` to 0, so
the gate proceeds — there is no "below L0 / no level" state in the code. -/
theorem gate_requireLevel0_no_evidence_counterexample :
    requireVerificationLevel 0 (some VerificationRole.student) bareUser [] =
      GateOutcome.proceed 0 VerificationRole.student := by
  decide

/-- C4, amended: for a user with no cached trust level for the checked
role, no approved record for `(user, role)`, and an unverified email, the
gate resolves the effective level to the numeric default 0 (not an explicit
"no level"): `requireVerificationLevel requiredLevel` fails with a 403
authorization error exactly when `requiredLevel ≥ 1`, and proceeds when
`requiredLevel = 0`. -/
theorem gate_no_evidence_defaults_to_level0 (user : UserEntity)
    (db : List VerificationRecord) (role : VerificationRole) (requiredLevel : Nat)
    (hcache : user.verificationLevels role = none)
    (hrec : findApprovedVerification db user.id role = none)
    (hmail : user.isEmailVerified = false) :
    resolveUserLevel user db role = 0 ∧
    (1 ≤ requiredLevel →
      requireVerificationLevel requiredLevel (some role) user db =
        GateOutcome.appError 403 (gateMessage requiredLevel 0)) ∧
    (requireVerificationLevel 0 (some role) user db =
      GateOutcome.proceed 0 role) := by
  have hres : resolveUserLevel user db role = 0 := by
    simp [resolveUserLevel, hcache, hrec, hmail]
  refine ⟨hres, ?_, ?_⟩
  · intro hreq
    simp [requireVerificationLevel, Option.orElse, hres]
    omega
  · simp [requireVerificationLevel, Option.orElse, hres]

/-- Witness for the amended C4 at a concrete input: the bare user is turned
away from a level-1 gate with the 403 error naming required level L1 and
actual level L0. -/
theorem gate_no_evidence_defaults_to_level0_witness :
    requireVerificationLevel 1 (some VerificationRole.student) bareUser [] =
      GateOutcome.appError 403 (gateMessage 1 0) :=
  (gate_no_evidence_defaults_to_level0 bareUser [] VerificationRole.student 1
    rfl rfl rfl).2.1 (by decide)

/-- A user whose trust cache holds level 0 for `student`. -/
def cachedZeroUser : UserEntity :=
  { id := 7
    verificationLevels := fun r => if r = VerificationRole.student then some 0 else none
    isEmailVerified := false
    primaryRole := some VerificationRole.student }

/-- An approved student verification record at level 3 for user 7. -/
def approvedStudentRecord : VerificationRecord :=
  { userId := 7
    role := VerificationRole.student
    verificationLevel := 3
    status := VerificationStatus.approved
    evidence := scenarioCEvidence
    submittedAt := 0
    reviewedBy := some 99
    reviewedAt := some 1
    rejectionReason := none
    adminNotes := none }

/-- C5, counterexample: a cached trust level of 0 does *not* win: with
`verificationLevels[student] = 0` in the cache and an approved level-3
record in the store, the resolution falls through the `userLevel === 0`
test, consults the approved-record fallback, and returns 3 — the cached
value 0 is not used as the effective level. -/
theorem gate_cached_zero_counterexample :
    resolveUserLevel cachedZeroUser [approvedStudentRecord] VerificationRole.student = 3 := by
  decide

/-- C5, amended: the first-hit-wins rule holds only for non-zero cached
values: a cached level `v ≠ 0` is used as the effective level and the
approved-record fallback is never consulted (the result is independent of
the store); a cached level 0 falls through to the fallback, and when an
approved record exists its level becomes the effective level. -/
theorem gate_cache_first_hit (user : UserEntity) (db : List VerificationRecord)
    (role : VerificationRole) :
    (∀ v, user.verificationLevels role = some v → v ≠ 0 →
      resolveUserLevel user db role = v) ∧
    (user.verificationLevels role = some 0 →
      ∀ rec, findApprovedVerification db user.id role = some rec →
        resolveUserLevel user db role = rec.verificationLevel) := by
  constructor
  · intro v hv hv0
    simp [resolveUserLevel, hv, hv0]
  · intro hv rec hrec
    simp [resolveUserLevel, hv, hrec]

/-- Witness for the amended C5 at concrete inputs: a cached level 2 is
taken as-is even though the store holds an approved level-3 record, and the
cached-zero user picks up level 3 from the store. -/
theorem gate_cache_first_hit_witness :
    resolveUserLevel
      { id := 7
        verificationLevels := fun r => if r = VerificationRole.student then some 2 else none
        isEmailVerified := false
        primaryRole := some VerificationRole.student }
      [approvedStudentRecord] VerificationRole.student = 2 ∧
    resolveUserLevel cachedZeroUser [approvedStudentRecord] VerificationRole.student =
      approvedStudentRecord.verificationLevel :=
  ⟨(gate_cache_first_hit _ [approvedStudentRecord] VerificationRole.student).1 2
      rfl (by decide),
   (gate_cache_first_hit cachedZeroUser [approvedStudentRecord]
      VerificationRole.student).2 rfl approvedStudentRecord (by decide)⟩

/-! ## The submission path -/

/-- The evidence part of a submission request body
(line 32 of `verificationController.ts`, the rest-destructuring of
`req.body` into `verificationData`).  Each section is `none` when its key
is absent from the body and `some x` when the key is present — for the
`Bool` sections `x` is the truthiness of the supplied value, for `idProof`
it is the supplied section.  The distinction between an absent key and a
present falsy value matters for `Object.assign`, which assigns exactly the
present keys. -/
structure SubmissionBody where
  idProof : Option (Option IdProofSection)
  educationInfo : Option Bool
  professionalCredentials : Option Bool
  bankDetails : Option Bool
  companyKYC : Option Bool
  taxCompliance : Option Bool
  investmentBankDetails : Option Bool
  sponsorKYC : Option Bool
  addressProof : Option Bool
  videoVerification : Option Bool
deriving DecidableEq, Repr

/-- The truthiness view of a request body, as read by the derivation
checks (lines 55–71) and as stored by `Verification.create` on a fresh
document: an absent key and a present falsy value both read as falsy. -/
def bodyEvidence (b : SubmissionBody) : VerificationData :=
  { idProof := b.idProof.getD none
    educationInfo := b.educationInfo.getD false
    professionalCredentials := b.professionalCredentials.getD false
    bankDetails := b.bankDetails.getD false
    companyKYC := b.companyKYC.getD false
    taxCompliance := b.taxCompliance.getD false
    investmentBankDetails := b.investmentBankDetails.getD false
    sponsorKYC := b.sponsorKYC.getD false
    addressProof := b.addressProof.getD false
    videoVerification := b.videoVerification.getD false }

/-- The key-wise effect on the stored evidence of spreading the body into
the `Object.assign` source (lines 95–101): only the keys present in the
request body are assigned; a section omitted from the body keeps its
stored value on the record. -/
def assignEvidence (current : VerificationData) (b : SubmissionBody) :
    VerificationData :=
  { idProof := match b.idProof with
      | some v => v
      | none => current.idProof
    educationInfo := match b.educationInfo with
      | some v => v
      | none => current.educationInfo
    professionalCredentials := match b.professionalCredentials with
      | some v => v
      | none => current.professionalCredentials
    bankDetails := match b.bankDetails with
      | some v => v
      | none => current.bankDetails
    companyKYC := match b.companyKYC with
      | some v => v
      | none => current.companyKYC
    taxCompliance := match b.taxCompliance with
      | some v => v
      | none => current.taxCompliance
    investmentBankDetails := match b.investmentBankDetails with
      | some v => v
      | none => current.investmentBankDetails
    sponsorKYC := match b.sponsorKYC with
      | some v => v
      | none => current.sponsorKYC
    addressProof := match b.addressProof with
      | some v => v
      | none => current.addressProof
    videoVerification := match b.videoVerification with
      | some v => v
      | none => current.videoVerification }

/-- The `Object.assign(verification, …)` update of an existing record
(`verificationController.ts` lines 93–102): role, level, status, and
`submittedAt` are always assigned (they are literal keys of the assign
source); the evidence keys are assigned only when present in the body
(`assignEvidence`); review fields (`reviewedBy`, `reviewedAt`,
`rejectionReason`, `adminNotes`) are left as they were. -/
def applySubmissionUpdate (rec : VerificationRecord) (role : VerificationRole)
    (body : SubmissionBody) (finalLevel now : Nat) : VerificationRecord :=
  { rec with
    role := role
    evidence := assignEvidence rec.evidence body
    verificationLevel := finalLevel
    status := VerificationStatus.pending
    submittedAt := now }

/-- The `Verification.create({...})` document of a first submission
(`verificationController.ts` lines 104–112): on a fresh document the
spread body keys are all there is, so the stored evidence is the body in
its truthiness view. -/
def newSubmissionRecord (userId : Nat) (role : VerificationRole)
    (vd : VerificationData) (finalLevel now : Nat) : VerificationRecord :=
  { userId := userId
    role := role
    verificationLevel := finalLevel
    status := VerificationStatus.pending
    evidence := vd
    submittedAt := now
    reviewedBy := none
    reviewedAt := none
    rejectionReason := none
    adminNotes := none }

/-- The record produced by `submitVerification` (lines 46–113):
`finalLevel = verificationLevel !== undefined ? verificationLevel :
determinedLevel`, then update-or-create depending on the earlier
`findOne`. -/
def submitVerificationRecord (userId : Nat) (role : VerificationRole)
    (isEmailVerified : Bool) (body : SubmissionBody) (providedLevel : Option Nat)
    (existing : Option VerificationRecord) (now : Nat) : VerificationRecord :=
  let determinedLevel := determineLevel role isEmailVerified (bodyEvidence body)
  let finalLevel :=
    match providedLevel with
    | some l => l
    | none => determinedLevel
  match existing with
  | some verification => applySubmissionUpdate verification role body finalLevel now
  | none => newSubmissionRecord userId role (bodyEvidence body) finalLevel now

/-- A storage-layer write failure.  `duplicateKey` is MongoDB's E11000
duplicate-key error raised by the unique index
`VerificationSchema.index({ userId: 1, role: 1 }, { unique: true })`
(`models/Verification.ts` line 525). -/
inductive DBWriteError where
  | duplicateKey
deriving DecidableEq, Repr

/-- Model of `Verification.create` under the unique `(userId, role)` index: the
insert fails with a duplicate-key error when a record for the pair already
exists. -/
def createVerification (db : List VerificationRecord) (r : VerificationRecord) :
    Except DBWriteError (List VerificationRecord) :=
  if db.any (fun x => decide (x.userId = r.userId ∧ x.role = r.role)) then
    Except.error DBWriteError.duplicateKey
  else
    Except.ok (db ++ [r])

/-- Model of `verification.save()` on a fetched document: replace the `(userId,
role)` record in the collection. -/
def saveVerification (db : List VerificationRecord) (userId : Nat)
    (role : VerificationRole) (r : VerificationRecord) : List VerificationRecord :=
  db.map (fun x => if x.userId = userId ∧ x.role = role then r else x)

/-- The storage phase of `submitVerification` (lines 87–113), with the
result of the earlier `findOne` passed in explicitly so that a stale read —
the racing case — is expressible: `found` is what `findOne` returned, `db`
is the collection when the write runs.  The source wraps neither branch in
any handler: in particular the `create` branch has no catch for a
unique-index violation, so the duplicate-key error is returned as-is. -/
def submitStorePhase (found : Option VerificationRecord)
    (db : List VerificationRecord) (userId : Nat) (role : VerificationRole)
    (body : SubmissionBody) (finalLevel now : Nat) :
    Except DBWriteError (List VerificationRecord) :=
  match found with
  | some verification =>
    Except.ok (saveVerification db userId role
      (applySubmissionUpdate verification role body finalLevel now))
  | none =>
    createVerification db
      (newSubmissionRecord userId role (bodyEvidence body) finalLevel now)

/-- Scenario C as a request body: the addressProof and videoVerification
keys present and truthy, every other key absent. -/
def scenarioCBody : SubmissionBody :=
  { idProof := none
    educationInfo := none
    professionalCredentials := none
    bankDetails := none
    companyKYC := none
    taxCompliance := none
    investmentBankDetails := none
    sponsorKYC := none
    addressProof := some true
    videoVerification := some true }

/-- C6, counterexample: the racing case: `findOne` saw no record
(`found = none`), but by the time `create` runs the other submission's
record for `(userId 5, student)` is in the collection.  The create's
duplicate-key error is returned raw to the caller — there is no
retry-as-update and no `ConflictError` translation in the code. -/
theorem submit_race_counterexample :
    submitStorePhase none
      [newSubmissionRecord 5 VerificationRole.student scenarioCEvidence 3 0]
      5 VerificationRole.student scenarioCBody 3 1 =
      Except.error DBWriteError.duplicateKey := by
  rfl

/-- C6, amended: when two first-time submissions race on the same
`(userId, role)`, the loser's `create` fails on the unique index and the
duplicate-key error propagates to the caller unhandled: the submission path
performs no retry-as-update and raises no `ConflictError`.  Exactly one
record exists afterwards (the winner's — the failed insert writes
nothing), uniqueness being guaranteed solely by the schema's unique
index. -/
theorem submit_race_raw_duplicate_key (db : List VerificationRecord)
    (userId : Nat) (role : VerificationRole) (body : SubmissionBody)
    (finalLevel now : Nat)
    (h : ∃ x ∈ db, x.userId = userId ∧ x.role = role) :
    submitStorePhase none db userId role body finalLevel now =
      Except.error DBWriteError.duplicateKey := by
  obtain ⟨x, hx, hu, hr⟩ := h
  simp [submitStorePhase, createVerification, newSubmissionRecord]
  exact ⟨x, hx, hu, hr⟩

/-- Witness for the amended C6 at a concrete input: with the student
record of user 5 already present, a second first-time submission's create fails with
the duplicate-key error. -/
theorem submit_race_raw_duplicate_key_witness :
    submitStorePhase none
      [newSubmissionRecord 5 VerificationRole.student scenarioCEvidence 3 0]
      5 VerificationRole.student scenarioCBody 2 2 =
      Except.error DBWriteError.duplicateKey :=
  submit_race_raw_duplicate_key _ 5 VerificationRole.student scenarioCBody 2 2
    ⟨newSubmissionRecord 5 VerificationRole.student scenarioCEvidence 3 0,
      by simp, rfl, rfl⟩

/-- C8: a caller-supplied `verificationLevel` is stored as-is — the
derivation result is ignored and the supplied value is not re-validated
against the evidence (it is independent of the submitted body); the
derived level is used exactly when no explicit level is supplied. -/
theorem submit_explicit_level_overrides (userId : Nat) (role : VerificationRole)
    (isEmailVerified : Bool) (body : SubmissionBody) (lvl : Nat)
    (existing : Option VerificationRecord) (now : Nat) :
    (submitVerificationRecord userId role isEmailVerified body (some lvl)
      existing now).verificationLevel = lvl ∧
    (submitVerificationRecord userId role isEmailVerified body none
      existing now).verificationLevel =
      determineLevel role isEmailVerified (bodyEvidence body) := by
  cases existing <;>
    simp [submitVerificationRecord, applySubmissionUpdate, newSubmissionRecord]

/-- A request body that is absent everywhere: no evidence key at all. -/
def emptyBody : SubmissionBody :=
  { idProof := none
    educationInfo := none
    professionalCredentials := none
    bankDetails := none
    companyKYC := none
    taxCompliance := none
    investmentBankDetails := none
    sponsorKYC := none
    addressProof := none
    videoVerification := none }

/-- A re-submission body carrying only an ID proof: the idProof key is
present, every other evidence key is omitted. -/
def partialResubmission : SubmissionBody :=
  { idProof := some (some { documentUrl := some "doc.pdf" })
    educationInfo := none
    professionalCredentials := none
    bankDetails := none
    companyKYC := none
    taxCompliance := none
    investmentBankDetails := none
    sponsorKYC := none
    addressProof := none
    videoVerification := none }

/-- C10, counterexample: re-submitting a body that contains only an ID
proof over the approved record holding address-proof and video sections
does reset the status to `pending`, but the stored evidence is *not* the
submitted bundle: the omitted `addressProof` section persists as truthy on
the record, because `Object.assign` assigns only the keys present in the
body — the claimed wholesale evidence overwrite is false. -/
theorem submit_partial_resubmission_counterexample :
    (submitVerificationRecord 7 VerificationRole.student true partialResubmission
      none (some approvedStudentRecord) 9).status = VerificationStatus.pending ∧
    (submitVerificationRecord 7 VerificationRole.student true partialResubmission
      none (some approvedStudentRecord) 9).evidence ≠
      bodyEvidence partialResubmission ∧
    (submitVerificationRecord 7 VerificationRole.student true partialResubmission
      none (some approvedStudentRecord) 9).evidence.addressProof = true ∧
    (bodyEvidence partialResubmission).addressProof = false := by
  refine ⟨rfl, by decide, rfl, rfl⟩

/-- C10, amended: re-submission resets an existing record unconditionally:
for *every* existing record `v` — its status may be `pending`, `approved`,
`rejected`, or `incomplete` — the update puts the record back into
`pending` with the new `submittedAt` and overwrites the level; the
evidence, however, is merged key-wise: sections present in the body
overwrite the stored ones, while sections omitted from the body persist
unchanged (for the body with no evidence keys at all, the stored evidence
is untouched).  Nothing in the code locks a terminal state against the
user's own re-submission, so an approved verification is silently demoted
to `pending`. -/
theorem submit_existing_record_reset (userId : Nat) (role : VerificationRole)
    (isEmailVerified : Bool) (body : SubmissionBody) (providedLevel : Option Nat)
    (now : Nat) (v : VerificationRecord) :
    (submitVerificationRecord userId role isEmailVerified body providedLevel
      (some v) now).status = VerificationStatus.pending ∧
    (submitVerificationRecord userId role isEmailVerified body providedLevel
      (some v) now).submittedAt = now ∧
    (submitVerificationRecord userId role isEmailVerified body providedLevel
      (some v) now).verificationLevel =
      (match providedLevel with
       | some l => l
       | none => determineLevel role isEmailVerified (bodyEvidence body)) ∧
    (submitVerificationRecord userId role isEmailVerified body providedLevel
      (some v) now).evidence = assignEvidence v.evidence body ∧
    (submitVerificationRecord userId role isEmailVerified emptyBody providedLevel
      (some v) now).evidence = v.evidence := by
  refine ⟨?_, ?_, ?_, ?_, ?_⟩ <;> cases providedLevel <;>
    simp [submitVerificationRecord, applySubmissionUpdate, assignEvidence, emptyBody]

/-! ## The review workflow -/

/-- Model of `if (adminNotes) verification.adminNotes = adminNotes`
(`verificationController.ts` lines 266 and 330): the field is overwritten
only when the incoming value is truthy (present and non-empty). -/
def applyAdminNotes (current adminNotes : Option String) : Option String :=
  match adminNotes with
  | some n => if n = "" then current else some n
  | none => current

/-- The trust-cache write of `approveVerification` (lines 270–285):
`user.verificationLevels[verification.role] = verification.verificationLevel`
— one key overwritten, the others kept (an absent map is first initialized
to the empty one, which the all-`none` function already is). -/
def updateUserTrustCache (user : UserEntity) (role : VerificationRole)
    (level : Nat) : UserEntity :=
  { user with
    verificationLevels := fun r =>
      if r = role then some level else user.verificationLevels r }

/-- Controller `approveVerification` (lines 243–295) after the record has been found:
the record's status/review fields are set unconditionally — no check of the
current status — and then, when the record's user is found, the record's
level is written into that user's trust cache for the record's role.  The
returned pair is (saved record, saved user, if any). -/
def approveVerificationApply (rec : VerificationRecord) (reviewerId : Nat)
    (adminNotes : Option String) (now : Nat) (user : Option UserEntity) :
    VerificationRecord × Option UserEntity :=
  let saved :=
    { rec with
      status := VerificationStatus.approved
      reviewedBy := some reviewerId
      reviewedAt := some now
      adminNotes := applyAdminNotes rec.adminNotes adminNotes }
  match user with
  | some u => (saved, some (updateUserTrustCache u saved.role saved.verificationLevel))
  | none => (saved, none)

/-- Controller `rejectVerification` (lines 302–342) after the record has been found:
a 400 error when the rejection reason is falsy (absent or empty),
otherwise the record's status/review/rejection fields are set.  The user
document is never loaded or written — the user component passes through
untouched. -/
def rejectVerificationApply (rec : VerificationRecord) (reviewerId : Nat)
    (rejectionReason adminNotes : Option String) (now : Nat)
    (user : Option UserEntity) :
    Except String (VerificationRecord × Option UserEntity) :=
  match rejectionReason with
  | none => Except.error "Rejection reason is required"
  | some reason =>
    if reason = "" then Except.error "Rejection reason is required"
    else
      Except.ok
        ({ rec with
           status := VerificationStatus.rejected
           reviewedBy := some reviewerId
           reviewedAt := some now
           rejectionReason := some reason
           adminNotes := applyAdminNotes rec.adminNotes adminNotes },
         user)

/-- C7: after `approve`, the user's cached level for the record's role
equals the record's `verificationLevel` exactly — whatever was cached
before, including a higher value (demotion) — while every other role's
cache entry is untouched; after `reject` (with a non-empty reason, so it
succeeds), the user document is not written at all: the cache is unchanged
for every role. -/
theorem approve_sets_cache_reject_leaves_cache (rec : VerificationRecord)
    (reviewerId : Nat) (notes : Option String) (now : Nat) (user : UserEntity)
    (reason : String) (notes2 : Option String) (reviewer2 now2 : Nat)
    (hreason : reason ≠ "") :
    ((approveVerificationApply rec reviewerId notes now (some user)).2.map
      (fun u => u.verificationLevels rec.role) = some (some rec.verificationLevel)) ∧
    (∀ r, r ≠ rec.role →
      (approveVerificationApply rec reviewerId notes now (some user)).2.map
        (fun u => u.verificationLevels r) = some (user.verificationLevels r)) ∧
    ((rejectVerificationApply rec reviewer2 (some reason) notes2 now2
        (some user)).map Prod.snd = Except.ok (some user)) := by
  refine ⟨?_, ?_, ?_⟩
  · simp [approveVerificationApply, updateUserTrustCache]
  · intro r hr
    simp [approveVerificationApply, updateUserTrustCache, hr]
  · simp [rejectVerificationApply, hreason, Except.map]

/-- A user whose student level is cached at 3, about to be approved at the
lower level 1 — the approval overwrites downward. -/
def demoteUser : UserEntity :=
  { id := 5
    verificationLevels := fun r => if r = VerificationRole.student then some 3 else none
    isEmailVerified := true
    primaryRole := some VerificationRole.student }

/-- A pending student record at level 1 for user 5. -/
def demoteRecord : VerificationRecord :=
  { userId := 5
    role := VerificationRole.student
    verificationLevel := 1
    status := VerificationStatus.pending
    evidence := scenarioCEvidence
    submittedAt := 0
    reviewedBy := none
    reviewedAt := none
    rejectionReason := none
    adminNotes := none }

/-- Witness for C7 at concrete inputs: approving a level-1 record for a
user cached at level 3 rewrites the cache to exactly 1 (a decrease), and a
reject with reason "document blurry" leaves the user untouched. -/
theorem approve_sets_cache_reject_leaves_cache_witness :
    ((approveVerificationApply demoteRecord 99 none 10 (some demoteUser)).2.map
      (fun u => u.verificationLevels demoteRecord.role) =
        some (some demoteRecord.verificationLevel)) ∧
    ((rejectVerificationApply demoteRecord 99 (some "document blurry") none 10
        (some demoteUser)).map Prod.snd = Except.ok (some demoteUser)) :=
  ⟨(approve_sets_cache_reject_leaves_cache demoteRecord 99 none 10 demoteUser
      "document blurry" none 99 10 (by decide)).1,
   (approve_sets_cache_reject_leaves_cache demoteRecord 99 none 10 demoteUser
      "document blurry" none 99 10 (by decide)).2.2⟩

/-- C9: the controller `approveVerification` imposes no precondition on the record's
current status: for every record and *every* current status — `pending`,
`rejected`, `approved`, or `incomplete` — the approval succeeds, sets
`status = approved` with `reviewedBy`/`reviewedAt`, and writes the
record's level into the user's trust cache for the record's role.  In
particular a `rejected` record is approved directly, a transition outside
the spec's `pending → approved | pending → rejected` state machine. -/
theorem approve_ignores_current_status (rec : VerificationRecord)
    (st : VerificationStatus) (reviewerId : Nat) (notes : Option String)
    (now : Nat) (user : UserEntity) :
    (approveVerificationApply { rec with status := st } reviewerId notes now
      (some user)).1.status = VerificationStatus.approved ∧
    (approveVerificationApply { rec with status := st } reviewerId notes now
      (some user)).1.reviewedBy = some reviewerId ∧
    (approveVerificationApply { rec with status := st } reviewerId notes now
      (some user)).1.reviewedAt = some now ∧
    (approveVerificationApply { rec with status := st } reviewerId notes now
      (some user)).2.map (fun u => u.verificationLevels rec.role) =
      some (some rec.verificationLevel) := by
  refine ⟨rfl, rfl, rfl, ?_⟩
  simp [approveVerificationApply, updateUserTrustCache]

/-! ## The crypto codec

The codec of `src/utils/encryption.ts`.  The AES-256-GCM cipher itself is
Node's `crypto` library, not code of this repository; it is abstracted as
an `AEAD` primitive, and each theorem takes the primitive's behaviour at
the inputs it uses as explicit hypotheses.  What is embedded from the
source is everything the repository contributes: the blob layout
`salt(64) || iv(16) || authTag(16) || ciphertext`, the base64 encoding,
the fixed slicing offsets of `decrypt`, the empty-input passthrough, and
the collapse of any decryption failure into the single `CryptoError`
message. -/

/-- Alphabet of standard base64 (`Buffer.toString` with base64). -/
def base64Alphabet : List Char :=
  "ABCDEFGHIJKLMNOPQRSTUVWXYZabcdefghijklmnopqrstuvwxyz0123456789+/".toList

/-- Character for a sextet value. -/
def b64Char (n : Nat) : Char := base64Alphabet.getD n 'A'

/-- Sextet value of a character. -/
def b64Value (c : Char) : Nat := base64Alphabet.indexOf c

/-- Base64 encoding of a byte list, three bytes to four characters, with
trailing `=` padding. -/
def b64EncodeBytes : List Nat → List Char
  | [] => []
  | [a] => [b64Char (a / 4), b64Char (a % 4 * 16), '=', '=']
  | [a, b] => [b64Char (a / 4), b64Char (a % 4 * 16 + b / 16), b64Char (b % 16 * 4), '=']
  | a :: b :: c :: rest =>
    b64Char (a / 4) :: b64Char (a % 4 * 16 + b / 16) ::
      b64Char (b % 16 * 4 + c / 64) :: b64Char (c % 64) :: b64EncodeBytes rest

/-- Base64 decoding, sextet side: four sextets to three bytes, a trailing
pair/triple to one/two bytes. -/
def b64DecodeSextets : List Nat → List Nat
  | [s0, s1] => [s0 * 4 + s1 / 16]
  | [s0, s1, s2] => [s0 * 4 + s1 / 16, s1 % 16 * 16 + s2 / 4]
  | s0 :: s1 :: s2 :: s3 :: rest =>
    (s0 * 4 + s1 / 16) :: (s1 % 16 * 16 + s2 / 4) :: (s2 % 4 * 64 + s3) ::
      b64DecodeSextets rest
  | _ => []

/-- Base64 decoding of a character list (`Buffer.from` with base64,
which is lenient: padding is dropped, values are read off). -/
def b64DecodeChars (cs : List Char) : List Nat :=
  b64DecodeSextets ((cs.filter (fun c => !(c == '='))).map b64Value)

/-- Decoding a sextet's character recovers the sextet. -/
theorem b64Value_b64Char : ∀ n < 64, b64Value (b64Char n) = n := by decide

/-- Sextet characters are never the padding character. -/
theorem b64Char_ne_pad : ∀ n < 64, (b64Char n == '=') = false := by decide

/-- Base64 round trip on byte lists. -/
theorem b64_decode_encode : ∀ bs : List Nat, (∀ x ∈ bs, x < 256) →
    b64DecodeChars (b64EncodeBytes bs) = bs
  | [], _ => rfl
  | [a], h => by
    have ha : a < 256 := h a (by simp)
    have h1 : (b64Char (a / 4) == '=') = false := b64Char_ne_pad _ (by omega)
    have h2 : (b64Char (a % 4 * 16) == '=') = false := b64Char_ne_pad _ (by omega)
    have v1 : b64Value (b64Char (a / 4)) = a / 4 := b64Value_b64Char _ (by omega)
    have v2 : b64Value (b64Char (a % 4 * 16)) = a % 4 * 16 :=
      b64Value_b64Char _ (by omega)
    simp [b64DecodeChars, b64EncodeBytes, b64DecodeSextets, h1, h2, v1, v2]
    omega
  | [a, b], h => by
    have ha : a < 256 := h a (by simp)
    have hb : b < 256 := h b (by simp)
    have h1 : (b64Char (a / 4) == '=') = false := b64Char_ne_pad _ (by omega)
    have h2 : (b64Char (a % 4 * 16 + b / 16) == '=') = false :=
      b64Char_ne_pad _ (by omega)
    have h3 : (b64Char (b % 16 * 4) == '=') = false := b64Char_ne_pad _ (by omega)
    have v1 : b64Value (b64Char (a / 4)) = a / 4 := b64Value_b64Char _ (by omega)
    have v2 : b64Value (b64Char (a % 4 * 16 + b / 16)) = a % 4 * 16 + b / 16 :=
      b64Value_b64Char _ (by omega)
    have v3 : b64Value (b64Char (b % 16 * 4)) = b % 16 * 4 :=
      b64Value_b64Char _ (by omega)
    simp [b64DecodeChars, b64EncodeBytes, b64DecodeSextets, h1, h2, h3, v1, v2, v3]
    omega
  | a :: b :: c :: rest, h => by
    have ha : a < 256 := h a (by simp)
    have hb : b < 256 := h b (by simp)
    have hc : c < 256 := h c (by simp)
    have ih := b64_decode_encode rest (fun x hx => h x (by simp [hx]))
    have h1 : (b64Char (a / 4) == '=') = false := b64Char_ne_pad _ (by omega)
    have h2 : (b64Char (a % 4 * 16 + b / 16) == '=') = false :=
      b64Char_ne_pad _ (by omega)
    have h3 : (b64Char (b % 16 * 4 + c / 64) == '=') = false :=
      b64Char_ne_pad _ (by omega)
    have h4 : (b64Char (c % 64) == '=') = false := b64Char_ne_pad _ (by omega)
    have v1 : b64Value (b64Char (a / 4)) = a / 4 := b64Value_b64Char _ (by omega)
    have v2 : b64Value (b64Char (a % 4 * 16 + b / 16)) = a % 4 * 16 + b / 16 :=
      b64Value_b64Char _ (by omega)
    have v3 : b64Value (b64Char (b % 16 * 4 + c / 64)) = b % 16 * 4 + c / 64 :=
      b64Value_b64Char _ (by omega)
    have v4 : b64Value (b64Char (c % 64)) = c % 64 := b64Value_b64Char _ (by omega)
    simp only [b64DecodeChars] at ih
    simp [b64DecodeChars, b64EncodeBytes, b64DecodeSextets, h1, h2, h3, h4,
      v1, v2, v3, v4, ih]
    refine ⟨?_, ?_, ?_⟩ <;> omega

/-- Encoding a non-empty byte list yields a non-empty character list. -/
theorem b64EncodeBytes_ne_nil : ∀ bs : List Nat, bs ≠ [] → b64EncodeBytes bs ≠ []
  | [], h => absurd rfl h
  | [_], _ => by simp [b64EncodeBytes]
  | [_, _], _ => by simp [b64EncodeBytes]
  | _ :: _ :: _ :: _, _ => by simp [b64EncodeBytes]

/-- An authenticated symmetric cipher, the shape of Node's
`createCipheriv`/`createDecipheriv` with `aes-256-gcm`:
`enc key iv plaintext = (ciphertext, authTag)` and
`dec key iv ciphertext authTag` is the plaintext, or `none` when the
`decipher.final()` authentication check throws. -/
structure AEAD where
  enc : List Nat → List Nat → List Nat → List Nat × List Nat
  dec : List Nat → List Nat → List Nat → List Nat → Option (List Nat)

/-- The `encrypt` of `encryption.ts` (lines 27–45), with the cipher, the
derived key, and the random `salt`/`iv` passed explicitly: empty input is a
passthrough; otherwise the blob is
`base64(salt || iv || authTag || ciphertext)`. -/
def encrypt (A : AEAD) (key salt iv text : List Nat) : List Char :=
  if text = [] then []
  else
    b64EncodeBytes (salt ++ iv ++ (A.enc key iv text).2 ++ (A.enc key iv text).1)

/-- The message of the error thrown by the catch block of `decrypt`
(`encryption.ts` line 72). -/
def cryptoErrorMsg : String := "Failed to decrypt data. Invalid encrypted text or key."

/-- The `decrypt` of `encryption.ts` (lines 50–74): empty input is a
passthrough; otherwise the base64 blob is sliced at the fixed offsets
64/80/96 — the salt slice `data.subarray(0, 64)` is taken but never used,
because the key is derived with the fixed string constant `salt` — and
any cipher failure is collapsed by the catch block into the one
`CryptoError`. -/
def decrypt (A : AEAD) (key : List Nat) (encryptedText : List Char) :
    Except String (List Nat) :=
  if encryptedText = [] then Except.ok []
  else
    let data := b64DecodeChars encryptedText
    let iv := (data.drop 64).take 16
    let tag := (data.drop 80).take 16
    let encrypted := data.drop 96
    match A.dec key iv encrypted tag with
    | some decrypted => Except.ok decrypted
    | none => Except.error cryptoErrorMsg

/-- Slicing a well-formed blob at the fixed offsets recovers its parts. -/
theorem blob_slices (salt iv tag ct : List Nat) (hs : salt.length = 64)
    (hi : iv.length = 16) (ht : tag.length = 16) :
    ((salt ++ iv ++ tag ++ ct).drop 64).take 16 = iv ∧
    ((salt ++ iv ++ tag ++ ct).drop 80).take 16 = tag ∧
    (salt ++ iv ++ tag ++ ct).drop 96 = ct := by
  refine ⟨?_, ?_, ?_⟩
  · rw [List.append_assoc salt iv tag, List.append_assoc salt (iv ++ tag) ct,
      List.append_assoc iv tag ct, List.drop_left' hs, List.take_left' hi]
  · rw [List.append_assoc (salt ++ iv) tag ct,
      List.drop_left' (by simp [hs, hi] : (salt ++ iv).length = 80),
      List.take_left' ht]
  · rw [List.drop_left' (by simp [hs, hi, ht] : (salt ++ iv ++ tag).length = 96)]

/-- All bytes of a well-formed blob are bytes. -/
theorem blob_bytes_lt (salt iv tag ct : List Nat)
    (hsB : ∀ x ∈ salt, x < 256) (hiB : ∀ x ∈ iv, x < 256)
    (htB : ∀ x ∈ tag, x < 256) (hcB : ∀ x ∈ ct, x < 256) :
    ∀ x ∈ salt ++ iv ++ tag ++ ct, x < 256 := by
  intro x hx
  simp only [List.mem_append] at hx
  rcases hx with ((hx | hx) | hx) | hx
  · exact hsB x hx
  · exact hiB x hx
  · exact htB x hx
  · exact hcB x hx

/-- Decrypting the base64 encoding of a well-formed blob whose
ciphertext/tag the cipher authenticates back to `text` yields `text` —
shared backbone of the round-trip and tampering analyses. -/
theorem decrypt_encodeBlob_ok (A : AEAD) (key salt iv text : List Nat)
    (hs : salt.length = 64) (hi : iv.length = 16)
    (ht : (A.enc key iv text).2.length = 16)
    (hsB : ∀ x ∈ salt, x < 256) (hiB : ∀ x ∈ iv, x < 256)
    (htB : ∀ x ∈ (A.enc key iv text).2, x < 256)
    (hcB : ∀ x ∈ (A.enc key iv text).1, x < 256)
    (hgcm : A.dec key iv (A.enc key iv text).1 (A.enc key iv text).2 = some text) :
    decrypt A key (b64EncodeBytes
      (salt ++ iv ++ (A.enc key iv text).2 ++ (A.enc key iv text).1)) =
      Except.ok text := by
  have hblob : b64DecodeChars (b64EncodeBytes
      (salt ++ iv ++ (A.enc key iv text).2 ++ (A.enc key iv text).1)) =
      salt ++ iv ++ (A.enc key iv text).2 ++ (A.enc key iv text).1 :=
    b64_decode_encode _ (blob_bytes_lt _ _ _ _ hsB hiB htB hcB)
  have hnnil : b64EncodeBytes
      (salt ++ iv ++ (A.enc key iv text).2 ++ (A.enc key iv text).1) ≠ [] := by
    refine b64EncodeBytes_ne_nil _ ?_
    intro h0
    have hlen := congrArg List.length h0
    simp only [List.length_append, List.length_nil] at hlen
    omega
  have hsl := blob_slices salt iv (A.enc key iv text).2 (A.enc key iv text).1 hs hi ht
  unfold decrypt
  rw [if_neg hnnil]
  simp only [hblob, hsl.1, hsl.2.1, hsl.2.2, hgcm]

/-- C2: round trip.  For every non-empty plaintext, provided the cipher
primitive behaves as AES-256-GCM does at these inputs (the tag is 16
bytes, outputs are bytes, and decryption inverts encryption under the same
key and iv), the blob produced by `encrypt` decodes to exactly
`salt(64) || iv(16) || authTag(16) || ciphertext`, and `decrypt`, slicing
at those same fixed offsets, returns the original plaintext. -/
theorem decrypt_encrypt_roundtrip (A : AEAD) (key salt iv text : List Nat)
    (hs : salt.length = 64) (hi : iv.length = 16)
    (ht : (A.enc key iv text).2.length = 16)
    (hsB : ∀ x ∈ salt, x < 256) (hiB : ∀ x ∈ iv, x < 256)
    (htB : ∀ x ∈ (A.enc key iv text).2, x < 256)
    (hcB : ∀ x ∈ (A.enc key iv text).1, x < 256)
    (hgcm : A.dec key iv (A.enc key iv text).1 (A.enc key iv text).2 = some text)
    (hne : text ≠ []) :
    b64DecodeChars (encrypt A key salt iv text) =
      salt ++ iv ++ (A.enc key iv text).2 ++ (A.enc key iv text).1 ∧
    decrypt A key (encrypt A key salt iv text) = Except.ok text := by
  have henc : encrypt A key salt iv text =
      b64EncodeBytes (salt ++ iv ++ (A.enc key iv text).2 ++ (A.enc key iv text).1) := by
    simp [encrypt, hne]
  constructor
  · rw [henc]
    exact b64_decode_encode _ (blob_bytes_lt _ _ _ _ hsB hiB htB hcB)
  · rw [henc]
    exact decrypt_encodeBlob_ok A key salt iv text hs hi ht hsB hiB htB hcB hgcm

/-- A small concrete instance of the cipher primitive, used to evaluate the
codec theorems at concrete inputs: encryption shifts each byte by one and
emits a constant 16-byte tag; decryption checks the tag and shifts back. -/
def toyCipher : AEAD where
  enc := fun _ _ pt => (pt.map (fun b => (b + 1) % 256), List.replicate 16 7)
  dec := fun _ _ ct tag =>
    if tag = List.replicate 16 7 then some (ct.map (fun b => (b + 255) % 256))
    else none

/-- A concrete 64-byte salt. -/
def demoSalt : List Nat := List.replicate 64 9

/-- A concrete 16-byte iv. -/
def demoIv : List Nat := List.replicate 16 2

/-- A concrete two-byte plaintext. -/
def demoText : List Nat := [104, 105]

/-- Witness for C2 at concrete inputs: with the toy cipher, a concrete
salt/iv, and the plaintext `[104, 105]`, decrypting the encrypted blob
gives the plaintext back. -/
theorem decrypt_encrypt_roundtrip_witness :
    decrypt toyCipher [] (encrypt toyCipher [] demoSalt demoIv demoText) =
      Except.ok demoText :=
  (decrypt_encrypt_roundtrip toyCipher [] demoSalt demoIv demoText
    (by decide) (by decide) (by decide) (by decide) (by decide) (by decide)
    (by decide) (by decide) (by decide)).2

/-- The encrypted blob of `demoText`, with its first salt byte changed from
9 to 8 — a one-byte corruption of the stored blob. -/
def tamperedSaltBlob : List Char :=
  b64EncodeBytes ((8 :: List.replicate 63 9) ++ demoIv ++
    List.replicate 16 7 ++ [105, 106])

/-- C3, counterexample.  A corrupted blob on which `decrypt` does NOT
fail: `tamperedSaltBlob` differs from the genuine encryption of
`demoText` (its first byte, in the salt region, is changed), yet `decrypt`
succeeds and returns the original plaintext — the stored salt is sliced
but never used, so corruption confined to the 64-byte salt prefix escapes
authentication entirely, contradicting the claim that any changed byte
raises a `CryptoError`. -/
theorem decrypt_tampered_salt_counterexample :
    encrypt toyCipher [] demoSalt demoIv demoText ≠ tamperedSaltBlob ∧
    decrypt toyCipher [] tamperedSaltBlob = Except.ok demoText := by
  constructor
  · decide
  · rfl

/-- C3, amended.  Tampering is detected only outside the salt prefix, and
decryption is never silently wrong.  Precisely: (a) replacing the 64-byte
salt prefix of a blob with any other 64 bytes leaves `decrypt` succeeding
with the *original* plaintext, because the stored salt is sliced but never
used (the key comes from the fixed constant `salt`); (b) whenever the
cipher rejects the sliced iv/ciphertext/tag, `decrypt` raises the
`CryptoError`; (c) whenever `decrypt` succeeds, the returned plaintext is
exactly what the cipher authenticates for the blob's sliced
iv/ciphertext/tag — so under an authenticating cipher a successful
`decrypt` never returns garbage, and corruption of the iv, tag, or
ciphertext that breaks authentication always raises the `CryptoError`. -/
theorem decrypt_salt_unused_never_garbage (A : AEAD) (key iv text : List Nat)
    (hi : iv.length = 16) (ht : (A.enc key iv text).2.length = 16)
    (hiB : ∀ x ∈ iv, x < 256)
    (htB : ∀ x ∈ (A.enc key iv text).2, x < 256)
    (hcB : ∀ x ∈ (A.enc key iv text).1, x < 256)
    (hgcm : A.dec key iv (A.enc key iv text).1 (A.enc key iv text).2 = some text) :
    (∀ salt2 : List Nat, salt2.length = 64 → (∀ x ∈ salt2, x < 256) →
      decrypt A key (b64EncodeBytes
        (salt2 ++ iv ++ (A.enc key iv text).2 ++ (A.enc key iv text).1)) =
        Except.ok text) ∧
    (∀ b : List Char, b ≠ [] →
      A.dec key (((b64DecodeChars b).drop 64).take 16) ((b64DecodeChars b).drop 96)
        (((b64DecodeChars b).drop 80).take 16) = none →
      decrypt A key b = Except.error cryptoErrorMsg) ∧
    (∀ (b : List Char) (p : List Nat), b ≠ [] →
      decrypt A key b = Except.ok p →
      A.dec key (((b64DecodeChars b).drop 64).take 16) ((b64DecodeChars b).drop 96)
        (((b64DecodeChars b).drop 80).take 16) = some p) := by
  refine ⟨?_, ?_, ?_⟩
  · intro salt2 hs2 hs2B
    exact decrypt_encodeBlob_ok A key salt2 iv text hs2 hi ht hs2B hiB htB hcB hgcm
  · intro b hb hdec
    unfold decrypt
    rw [if_neg hb]
    simp only [hdec]
  · intro b p hb hok
    unfold decrypt at hok
    rw [if_neg hb] at hok
    cases hdec : A.dec key (((b64DecodeChars b).drop 64).take 16)
        ((b64DecodeChars b).drop 96) (((b64DecodeChars b).drop 80).take 16) with
    | some q =>
      simp only [hdec] at hok
      simp only [Except.ok.injEq] at hok
      rw [hok]
    | none =>
      simp only [hdec] at hok
      exact absurd hok (by simp)

/-- Witness for the amended C3 at concrete inputs: with the toy cipher, the
blob whose salt prefix is replaced by `8 :: 9…9` still decrypts to the
original plaintext `[104, 105]`. -/
theorem decrypt_salt_unused_never_garbage_witness :
    decrypt toyCipher [] (b64EncodeBytes ((8 :: List.replicate 63 9) ++ demoIv ++
      (toyCipher.enc [] demoIv demoText).2 ++ (toyCipher.enc [] demoIv demoText).1)) =
      Except.ok demoText :=
  (decrypt_salt_unused_never_garbage toyCipher [] demoIv demoText
    (by decide) (by decide) (by decide) (by decide) (by decide) (by decide)).1
    (8 :: List.replicate 63 9) (by decide) (by decide)
